import Mathlib

/-!
Shallow embedding of the Danylo93/uber-like-freelas backend (Python/FastAPI),
covering the data model and the operations referenced by the specification:
authentication (`backend/auth.py`), the marketplace entities and review
aggregation (`backend/server.py`), provider service actions
(`backend/service_actions.py`), the payment ledger (`backend/payments.py`)
and the in-memory connection/presence broadcaster
(`backend/realtime_service.py`).

Conventions of the embedding:
* MongoDB collections are association lists kept in insertion order;
  `find_one` is `List.find?`, `update_one` updates the first match,
  `insert_one` appends.
* Python `datetime.utcnow()` is an explicit `now : Nat` argument; datetime
  columns are `Nat` timestamps.
* Python floats (ratings, prices, coordinates) are `ℚ`.
* Fallible handlers return `Db × Except PyError α`: the state component is
  the database after the call (unchanged when an exception is raised before
  any write, exactly as in the source).
* Nondeterministic identifiers (`uuid.uuid4()`) and the password hash /
  verify functions of `passlib` are explicit parameters.
-/

namespace Freelas

/-- Errors a request handler can surface: `HTTPException(status_code, detail)`,
a Python `AttributeError`, or a pydantic validation error. -/
inductive PyError
  | http (statusCode : Nat) (detail : String)
  | attributeError (msg : String)
  | validationError (msg : String)
deriving DecidableEq, Repr

/-- Embedding of `UserRole` enum from `models.py`. -/
inductive UserRole
  | client
  | provider
deriving DecidableEq, Repr

/-- Embedding of `ServiceStatus` enum from `models.py`: its six members are exactly
requested, matched, accepted, in_progress, completed, cancelled. -/
inductive ServiceStatus
  | requested
  | matched
  | accepted
  | in_progress
  | completed
  | cancelled
deriving DecidableEq, Repr

/-- Python attribute lookup on the `ServiceStatus` enum class: the member
table of the enum as declared in `models.py`.  Looking up a name that is not
a member (for example `PENDING`, used by `service_actions.py`) yields `none`,
which the handlers below surface as an `AttributeError`, exactly as Python
does. -/
def serviceStatusAttr : String → Option ServiceStatus
  | "REQUESTED" => some ServiceStatus.requested
  | "MATCHED" => some ServiceStatus.matched
  | "ACCEPTED" => some ServiceStatus.accepted
  | "IN_PROGRESS" => some ServiceStatus.in_progress
  | "COMPLETED" => some ServiceStatus.completed
  | "CANCELLED" => some ServiceStatus.cancelled
  | _ => none

/-- A stored user document (`db.users`): the fields of `models.User` read or
written by the operations modelled here, plus the `password_hash` column that
`auth.create_user` adds to the document. -/
structure UserRow where
  id : String
  email : String
  name : String
  role : UserRole
  phone : Option String := none
  avatar : Option String := none
  password_hash : String := ""
  rating : Option ℚ := none
  created_at : Nat := 0
  updated_at : Nat := 0
deriving DecidableEq, Repr

/-- Embedding of `models.UserCreate`: the registration payload. -/
structure UserCreate where
  email : String
  name : String
  role : UserRole
  phone : Option String := none
  avatar : Option String := none
  password : String
deriving DecidableEq, Repr

/-- A stored service-request document (`db.service_requests`): the fields
read or written by the handlers modelled here. -/
structure ServiceReqRow where
  id : String
  client_id : String
  provider_id : Option String := none
  status : ServiceStatus := ServiceStatus.requested
  created_at : Nat := 0
  updated_at : Nat := 0
deriving DecidableEq, Repr

/-- Embedding of `models.OfferCreate`: the offer payload. -/
structure OfferCreate where
  service_request_id : String
  price : ℚ
  estimated_duration : Int
  message : Option String := none
deriving DecidableEq, Repr

/-- A stored offer document (`db.offers`), per `models.Offer`. -/
structure OfferRow where
  id : String
  service_request_id : String
  price : ℚ
  estimated_duration : Int
  message : Option String := none
  provider_id : String
  status : String := "pending"
  created_at : Nat := 0
deriving DecidableEq, Repr

/-- Embedding of `models.ReviewCreate`: the review payload (`rating` is an integer
constrained to 1..5 by pydantic). -/
structure ReviewCreate where
  service_request_id : String
  rating : Int
  comment : Option String := none
deriving DecidableEq, Repr

/-- A stored review document (`db.reviews`), per `models.Review`. -/
structure ReviewRow where
  id : String
  service_request_id : String
  rating : Int
  comment : Option String := none
  reviewer_id : String
  reviewee_id : String
  created_at : Nat := 0
deriving DecidableEq, Repr

/-- A stored payment transaction (`db.payment_transactions`), as created by
`PaymentService.create_payment_transaction`. -/
structure Transaction where
  id : String
  user_id : String
  session_id : String
  amount : ℚ
  currency : String
  package_id : String
  payment_status : String
  status : String
  created_at : Nat := 0
  updated_at : Nat := 0
deriving DecidableEq, Repr

/-- The MongoDB database: the collections touched by the modelled
operations. -/
structure Db where
  users : List UserRow := []
  service_requests : List ServiceReqRow := []
  offers : List OfferRow := []
  reviews : List ReviewRow := []
  payment_transactions : List Transaction := []
deriving DecidableEq, Repr

/-- Mongo `update_one`: apply `f` to the first element satisfying `p`,
leaving the rest unchanged (no-op when nothing matches). -/
def updateFirst (p : α → Bool) (f : α → α) : List α → List α
  | [] => []
  | x :: xs => if p x then f x :: xs else x :: updateFirst p f xs

/-- Python dict assignment `d[k] = v`: replace the value of the first entry
with key `k`, or append a new entry when the key is absent. -/
def dictSet (l : List (String × α)) (k : String) (v : α) : List (String × α) :=
  if l.any (fun p => p.1 == k) then
    updateFirst (fun p => p.1 == k) (fun p => (p.1, v)) l
  else
    l ++ [(k, v)]

/-- Python truthiness of an `Optional[str]`: `None` and the empty string are
falsy. -/
def optTruthy : Option String → Bool
  | none => false
  | some s => s != ""

/-! ## Connection/Presence broadcaster (`realtime_service.py`) -/

/-- An accepted websocket handle.  `sendOk` abstracts the transport: it tells
whether `websocket.send_text` succeeds or raises on this connection. -/
structure WebSocketConn where
  connId : Nat
  sendOk : Bool
deriving DecidableEq, Repr

/-- An entry of `ConnectionManager.user_locations`. -/
structure LocationEntry where
  latitude : ℚ
  longitude : ℚ
  updated_at : Nat
deriving DecidableEq, Repr

/-- A materialised service snapshot held in
`ConnectionManager.active_services` (the `service_data` dict: the fields the
manager reads and writes). -/
structure ServiceSnap where
  id : String
  client_id : String
  provider_id : Option String := none
  status : ServiceStatus := ServiceStatus.requested
  updated_at : Nat := 0
deriving DecidableEq, Repr

/-- A JSON message pushed over a websocket: the fields used by the message
constructors of `realtime_service.py` (absent fields are `none`). -/
structure RtMessage where
  msgType : String
  user_id : Option String := none
  latitude : Option ℚ := none
  longitude : Option ℚ := none
  service_id : Option String := none
  status : Option ServiceStatus := none
  service : Option ServiceSnap := none
deriving DecidableEq, Repr

/-- The mutable state of `ConnectionManager`: connections, locations and
active services, each a dict keyed by id. -/
structure CMState where
  active_connections : List (String × WebSocketConn) := []
  user_locations : List (String × LocationEntry) := []
  active_services : List (String × ServiceSnap) := []
deriving DecidableEq, Repr

/-- Embedding of `ConnectionManager.disconnect(user_id)`: drop the user's connection and
location entries (each `del` guarded by a membership test, so the call never
fails). -/
def disconnect (st : CMState) (user_id : String) : CMState :=
  { st with
    active_connections := st.active_connections.filter (fun p => p.1 != user_id),
    user_locations := st.user_locations.filter (fun p => p.1 != user_id) }

/-- Embedding of `ConnectionManager.send_personal_message(message, user_id)`: deliver when
the user is connected; on a transport failure disconnect the target and
return `False`. -/
def send_personal_message (st : CMState) (message : RtMessage) (user_id : String) :
    CMState × Bool :=
  match st.active_connections.lookup user_id with
  | none => (st, false)
  | some ws => if ws.sendOk then (st, true) else (disconnect st user_id, false)

/-- The loop body of `ConnectionManager.broadcast_to_providers`: iterate over
the snapshot `list(self.active_connections.items())`, skip the excluded user,
send on each remaining handle, and on failure disconnect that user and keep
going.  Returns the final state, the number of successful sends and the list
of user ids to whom a send was attempted. -/
def btpGo (exclude_user_id : Option String) :
    List (String × WebSocketConn) → CMState → Nat → List String →
    CMState × Nat × List String
  | [], st, n, att => (st, n, att)
  | (uid, ws) :: rest, st, n, att =>
    if some uid == exclude_user_id then
      btpGo exclude_user_id rest st n att
    else if ws.sendOk then
      btpGo exclude_user_id rest st (n + 1) (att ++ [uid])
    else
      btpGo exclude_user_id rest (disconnect st uid) n (att ++ [uid])

/-- Embedding of `ConnectionManager.broadcast_to_providers(message, exclude_user_id)`. -/
def broadcast_to_providers (st : CMState) (exclude_user_id : Option String) :
    CMState × Nat × List String :=
  btpGo exclude_user_id st.active_connections st 0 []

/-- The set (as a dedup'd list) built by `broadcast_location_update`:
`service.get("client_id")` and `service.get("provider_id")` of every active
service the user appears in. -/
def involvedUsers (services : List (String × ServiceSnap)) (user_id : String) :
    List (Option String) :=
  ((services.filter (fun p =>
      user_id = p.2.client_id ∨ some user_id = p.2.provider_id)).flatMap
    (fun p => [some p.2.client_id, p.2.provider_id])).dedup

/-- The targets actually sent to by `broadcast_location_update`: the involved
users that are truthy and differ from the sender. -/
def locationTargets (services : List (String × ServiceSnap)) (user_id : String) :
    List String :=
  ((involvedUsers services user_id).filterMap id).filter
    (fun v => v != "" && v != user_id)

/-- Embedding of `ConnectionManager.broadcast_location_update(user_id, latitude,
longitude)`: build the location message, collect the involved users of the
active services, and `send_personal_message` to each target other than the
sender.  Returns the final state and the list of addressed targets. -/
def broadcast_location_update (st : CMState) (now : Nat) (user_id : String)
    (latitude longitude : ℚ) : CMState × List String :=
  let message : RtMessage :=
    { msgType := "location_update", user_id := some user_id,
      latitude := some latitude, longitude := some longitude }
  let targets := locationTargets st.active_services user_id
  (targets.foldl (fun s t => (send_personal_message s message t).1) st, targets)

/-- Embedding of `ConnectionManager.update_user_location(user_id, latitude, longitude)`:
record the location, then broadcast it. -/
def update_user_location (st : CMState) (now : Nat) (user_id : String)
    (latitude longitude : ℚ) : CMState × List String :=
  let st1 := { st with
    user_locations := dictSet st.user_locations user_id
      { latitude := latitude, longitude := longitude, updated_at := now } }
  broadcast_location_update st1 now user_id latitude longitude

/-- Embedding of `ConnectionManager.update_service_status(service_id, status,
provider_id)`: `False` and no effect when the service id is unknown;
otherwise mutate the snapshot, notify the client and (if assigned) the
provider, drop the snapshot on a terminal status, and return `True`.  The
third component lists `(target, message)` of every attempted personal
send. -/
def update_service_status (st : CMState) (now : Nat) (service_id : String)
    (status : ServiceStatus) (provider_id : Option String) :
    CMState × Bool × List (String × RtMessage) :=
  match st.active_services.lookup service_id with
  | none => (st, false, [])
  | some service =>
    let service1 : ServiceSnap := { service with status := status, updated_at := now }
    let service2 : ServiceSnap :=
      if optTruthy provider_id then { service1 with provider_id := provider_id }
      else service1
    let st1 : CMState := { st with
      active_services := updateFirst (fun p => p.1 == service_id)
        (fun p => (p.1, service2)) st.active_services }
    let message : RtMessage :=
      { msgType := "service_status_update", service_id := some service_id,
        status := some status, service := some service2 }
    let st2 := (send_personal_message st1 message service2.client_id).1
    let sends1 := [(service2.client_id, message)]
    let step3 : CMState × List (String × RtMessage) :=
      if optTruthy service2.provider_id then
        match service2.provider_id with
        | some pid => ((send_personal_message st2 message pid).1, sends1 ++ [(pid, message)])
        | none => (st2, sends1)
      else (st2, sends1)
    let st3 := step3.1
    let st4 : CMState :=
      if status = ServiceStatus.completed ∨ status = ServiceStatus.cancelled then
        { st3 with active_services := st3.active_services.filter (fun p => p.1 != service_id) }
      else st3
    (st4, true, step3.2)

/-! ## Auth service (`auth.py`) -/

/-- Embedding of `auth.get_user_by_email(email)`: `db.users.find_one({"email": email})`. -/
def get_user_by_email (db : Db) (email : String) : Option UserRow :=
  db.users.find? (fun u => u.email == email)

/-- The user document stored by `auth.create_user`: the `UserCreate` fields
minus the plain password, plus the hash and the model defaults. -/
def userDoc (hashF : String → String) (newId : String) (now : Nat)
    (uc : UserCreate) : UserRow :=
  { id := newId, email := uc.email, name := uc.name, role := uc.role,
    phone := uc.phone, avatar := uc.avatar,
    password_hash := hashF uc.password, rating := none,
    created_at := now, updated_at := now }

/-- Embedding of `auth.create_user(user_create)`: reject when the email is already
registered, otherwise hash the password (the hash function is the explicit
parameter `hashF`), store the document and return the new user.  `newId`
stands for the generated `uuid4` and `now` for `datetime.utcnow()`. -/
def create_user (hashF : String → String) (newId : String) (now : Nat)
    (db : Db) (uc : UserCreate) : Db × Except PyError UserRow :=
  match get_user_by_email db uc.email with
  | some _ => (db, Except.error (PyError.http 400 "Email already registered"))
  | none =>
    let row : UserRow := userDoc hashF newId now uc
    ({ db with users := db.users ++ [row] }, Except.ok row)

/-- Embedding of `auth.authenticate_user(email, password)`: `None` when the email lookup
fails, `None` when the stored hash does not verify (the bcrypt comparison is
the explicit parameter `verify`), otherwise the user. -/
def authenticate_user (verify : String → String → Bool) (db : Db)
    (email password : String) : Option UserRow :=
  match get_user_by_email db email with
  | none => none
  | some _ =>
    match db.users.find? (fun u => u.email == email) with
    | none => none
    | some row => if verify password row.password_hash then some row else none

/-- The bearer token issued by `auth.create_access_token`: subject claim and
lifetime in minutes (`ACCESS_TOKEN_EXPIRE_MINUTES = 30 * 24 * 60`). -/
structure AccessToken where
  sub : String
  expireMinutes : Nat
deriving DecidableEq, Repr

/-- The body of `auth.login_user`'s `TokenResponse`. -/
structure TokenResult where
  token : AccessToken
  user : UserRow
deriving DecidableEq, Repr

/-- Embedding of `auth.login_user(user_login)`: one generic 401 on any authentication
failure; on success a token whose subject is the user's email and whose
expiry lies 30 days (43200 minutes) ahead. -/
def login_user (verify : String → String → Bool) (db : Db)
    (email password : String) : Except PyError TokenResult :=
  match authenticate_user verify db email password with
  | none => Except.error (PyError.http 401 "Incorrect email or password")
  | some user =>
    Except.ok { token := { sub := user.email, expireMinutes := 30 * 24 * 60 },
                user := user }

/-! ## Payment gateway adapter (`payments.py`) -/

/-- Embedding of `db.payment_transactions.find_one({"session_id": session_id})`. -/
def find_transaction (db : Db) (session_id : String) : Option Transaction :=
  db.payment_transactions.find? (fun t => t.session_id == session_id)

/-- Embedding of `PaymentService.update_payment_transaction(session_id, status,
payment_status)`: 404 when the row is absent; return the existing row
untouched when it is already `"paid"`; otherwise set the two status columns
and `updated_at` and return the freshly re-read row. -/
def update_payment_transaction (db : Db) (now : Nat)
    (session_id status payment_status : String) :
    Db × Except PyError (Option Transaction) :=
  match find_transaction db session_id with
  | none => (db, Except.error (PyError.http 404 "Payment transaction not found"))
  | some existing =>
    if existing.payment_status == "paid" then (db, Except.ok (some existing))
    else
      let db' : Db := { db with
        payment_transactions := updateFirst (fun t => t.session_id == session_id)
          (fun t => { t with
            status := status
            payment_status := payment_status
            updated_at := now })
          db.payment_transactions }
      (db', Except.ok (find_transaction db' session_id))

/-- The remote `CheckoutStatusResponse` returned by the Stripe SDK (opaque
remote call: its fields are inputs here). -/
structure CheckoutStatusResponse where
  status : String
  payment_status : String
deriving DecidableEq, Repr

/-- Embedding of `PaymentService.get_checkout_status(session_id)`: query the remote
gateway (the response is the explicit argument `remote`), mirror it into the
local row via `update_payment_transaction`, and return it. -/
def get_checkout_status (db : Db) (now : Nat) (remote : CheckoutStatusResponse)
    (session_id : String) : Db × Except PyError CheckoutStatusResponse :=
  let r := update_payment_transaction db now session_id remote.status remote.payment_status
  match r.2 with
  | Except.error e => (r.1, Except.error e)
  | Except.ok _ => (r.1, Except.ok remote)

/-- The remote webhook payload decoded by the Stripe SDK. -/
structure WebhookResponse where
  session_id : String
  event_type : String
  payment_status : String
  event_id : String
deriving DecidableEq, Repr

/-- Embedding of `PaymentService.handle_webhook(body, signature)`: after signature
verification (delegated to the SDK, whose decoded response is the argument
`resp`), apply `update_payment_transaction` when the payload carries a
session id. -/
def handle_webhook (db : Db) (now : Nat) (resp : WebhookResponse) :
    Db × Except PyError WebhookResponse :=
  if resp.session_id != "" then
    let r := update_payment_transaction db now resp.session_id resp.event_type resp.payment_status
    match r.2 with
    | Except.error e => (r.1, Except.error e)
    | Except.ok _ => (r.1, Except.ok resp)
  else (db, Except.ok resp)

/-! ## Marketplace entities (`server.py`) -/

/-- The offer document built by `server.create_offer`:
`Offer(**offer_create.dict(), provider_id=current_user.id)` with the model's
default status `"pending"`. -/
def offerDoc (now : Nat) (user : UserRow) (oc : OfferCreate) (newId : String) :
    OfferRow :=
  { id := newId, service_request_id := oc.service_request_id,
    price := oc.price, estimated_duration := oc.estimated_duration,
    message := oc.message, provider_id := user.id, status := "pending",
    created_at := now }

/-- Embedding of `POST /api/services/offers` (`server.create_offer`): only providers may
offer; the offer is stored with `models.Offer`'s default status
`"pending"`.  `newId` stands for the generated `uuid4`. -/
def create_offer (db : Db) (now : Nat) (user : UserRow) (oc : OfferCreate)
    (newId : String) : Db × Except PyError OfferRow :=
  if user.role ≠ UserRole.provider then
    (db, Except.error (PyError.http 403 "Only providers can create offers"))
  else
    let offer : OfferRow := offerDoc now user oc newId
    ({ db with offers := db.offers ++ [offer] }, Except.ok offer)

/-- Round-half-to-even on the integers, the tie-breaking rule of Python's
built-in `round`. -/
def roundHalfEven (x : ℚ) : Int :=
  let f : Int := ⌊x⌋
  let r : ℚ := x - f
  if r < 1 / 2 then f
  else if 1 / 2 < r then f + 1
  else if f % 2 = 0 then f else f + 1

/-- Python's `round(x, 1)`: round to one decimal place, ties to even. -/
def round1 (x : ℚ) : ℚ :=
  (roundHalfEven (10 * x) : ℚ) / 10

/-- The Mongo aggregation of `server.update_provider_rating`: the `$avg` of
the ratings of all reviews whose `reviewee_id` is the given user. -/
def avgRating (reviews : List ReviewRow) (reviewee_id : String) : ℚ :=
  let rs := reviews.filter (fun r => r.reviewee_id == reviewee_id)
  ((rs.map (fun r => (r.rating : ℚ))).sum) / (rs.length : ℚ)

/-- Embedding of `server.update_provider_rating(provider_id)`: aggregate all reviews
addressed to the user; when at least one exists, store the rounded average
on the user document. -/
def update_provider_rating (db : Db) (now : Nat) (provider_id : String) : Db :=
  let rs := db.reviews.filter (fun r => r.reviewee_id == provider_id)
  if rs.isEmpty then db
  else
    { db with
      users := updateFirst (fun u => u.id == provider_id)
        (fun u => { u with
          rating := some (round1 (avgRating db.reviews provider_id))
          updated_at := now })
        db.users }

/-- Embedding of `POST /api/services/reviews` (`server.create_review`): 404 on an unknown
request, 403 unless the caller participated, 409 on a duplicate review by the
same reviewer; the reviewee is the other party (a pydantic validation error
when the request has no provider and the client is the reviewer); insert the
review, then recompute the reviewee's rating only when the reviewee is the
request's provider. -/
def create_review (db : Db) (now : Nat) (user : UserRow) (rc : ReviewCreate)
    (newId : String) : Db × Except PyError ReviewRow :=
  match db.service_requests.find? (fun s => s.id == rc.service_request_id) with
  | none => (db, Except.error (PyError.http 404 "Service request not found"))
  | some sr =>
    if ¬ (user.id = sr.client_id ∨ some user.id = sr.provider_id) then
      (db, Except.error (PyError.http 403 "You can only review services you participated in"))
    else
      let reviewee_opt : Option String :=
        if user.id = sr.client_id then sr.provider_id else some sr.client_id
      match db.reviews.find? (fun r =>
          r.service_request_id == rc.service_request_id && r.reviewer_id == user.id) with
      | some _ => (db, Except.error (PyError.http 409 "You have already reviewed this service"))
      | none =>
        match reviewee_opt with
        | none => (db, Except.error (PyError.validationError "reviewee_id: none is not an allowed value"))
        | some reviewee_id =>
          let rv : ReviewRow :=
            { id := newId, service_request_id := rc.service_request_id,
              rating := rc.rating, comment := rc.comment,
              reviewer_id := user.id, reviewee_id := reviewee_id,
              created_at := now }
          let db1 : Db := { db with reviews := db.reviews ++ [rv] }
          let db2 : Db :=
            if some reviewee_id = sr.provider_id then
              update_provider_rating db1 now reviewee_id
            else db1
          (db2, Except.ok rv)

/-! ## Provider service actions (`service_actions.py`) -/

/-- The JSON body returned by a successful accept. -/
structure AcceptResult where
  message : String
  service_id : String
  client_id : String
deriving DecidableEq, Repr

/-- Embedding of `POST /services/{service_id}/accept`
(`service_actions.accept_service_request`): 403 unless the caller is a
provider, 404 when the request is unknown; then the handler evaluates
`ServiceStatus.PENDING` to guard availability — an attribute lookup on the
enum's member table (`serviceStatusAttr`), which fails because the enum has
no such member; were the member present, a mismatching status would yield
400 and a matching one would assign the provider and set the status to
accepted. -/
def accept_service_request (db : Db) (now : Nat) (user : UserRow)
    (service_id : String) : Db × Except PyError AcceptResult :=
  if user.role ≠ UserRole.provider then
    (db, Except.error (PyError.http 403 "Only providers can accept services"))
  else
    match db.service_requests.find? (fun s => s.id == service_id) with
    | none => (db, Except.error (PyError.http 404 "Service request not found"))
    | some service =>
      match serviceStatusAttr "PENDING" with
      | none => (db, Except.error (PyError.attributeError "PENDING"))
      | some pending =>
        if service.status ≠ pending then
          (db, Except.error (PyError.http 400 "Service is no longer available"))
        else
          let db' : Db := { db with
            service_requests := updateFirst (fun s => s.id == service_id)
              (fun s => { s with
                provider_id := some user.id
                status := ServiceStatus.accepted
                updated_at := now })
              db.service_requests }
          (db', Except.ok { message := "Solicitação aceita com sucesso",
                            service_id := service_id,
                            client_id := service.client_id })

/-! ## Concrete instances used by witnesses and counterexamples -/

/-- A client user. -/
def wClient : UserRow :=
  { id := "c1", email := "client@x.com", name := "Cli", role := UserRole.client }

/-- A provider user. -/
def wProv : UserRow :=
  { id := "p1", email := "prov@x.com", name := "Pro", role := UserRole.provider }

/-- An accepted service request joining `wClient` and `wProv`. -/
def wSr : ServiceReqRow :=
  { id := "s1", client_id := "c1", provider_id := some "p1",
    status := ServiceStatus.accepted }

/-- A database holding the two users and the accepted request. -/
def wDb : Db := { users := [wClient, wProv], service_requests := [wSr] }

/-- A review payload from the client for request `s1`. -/
def wRc : ReviewCreate := { service_request_id := "s1", rating := 4 }

/-- The stored review produced by `create_review wDb 9 wClient wRc "r1"`. -/
def wRv : ReviewRow :=
  { id := "r1", service_request_id := "s1", rating := 4,
    reviewer_id := "c1", reviewee_id := "p1", created_at := 9 }

/-- The database after the client's review is created. -/
def wDbAfter : Db := (create_review wDb 9 wClient wRc "r1").1

/-- A review payload from the provider for request `s1`. -/
def xRc : ReviewCreate := { service_request_id := "s1", rating := 5 }

/-- The stored review produced by `create_review wDb 9 wProv xRc "r2"`. -/
def xRv : ReviewRow :=
  { id := "r2", service_request_id := "s1", rating := 5,
    reviewer_id := "p1", reviewee_id := "c1", created_at := 9 }

/-- A database with a service request still in `requested` status. -/
def aDb : Db :=
  { users := [wClient, wProv],
    service_requests := [{ id := "s9", client_id := "c1",
                           status := ServiceStatus.requested }] }

/-- A database with one provider and no service requests at all. -/
def oDb : Db := { users := [wProv] }

/-- An offer payload naming a non-existent service request. -/
def oOc : OfferCreate :=
  { service_request_id := "ghost", price := 100, estimated_duration := 60 }

/-- A registered user with a stored password hash. -/
def vUser : UserRow :=
  { id := "u1", email := "known@x.com", name := "U", role := UserRole.client,
    password_hash := "stored-hash" }

/-- A database holding exactly `vUser`. -/
def vDb : Db := { users := [vUser] }

/-- A payment transaction already marked paid. -/
def pTx : Transaction :=
  { id := "sess1", user_id := "u1", session_id := "sess1", amount := 50,
    currency := "brl", package_id := "service_basic",
    payment_status := "paid", status := "complete" }

/-- A database holding the paid transaction. -/
def pDb : Db := { payment_transactions := [pTx] }

/-- The per-service counterparty relation of the location fan-out: `v` is the
other party of active service `s` with respect to sender `uid`. -/
def isCounterparty (s : ServiceSnap) (uid v : String) : Prop :=
  (s.client_id = uid ∧ s.provider_id = some v) ∨
  (s.provider_id = some uid ∧ s.client_id = v)

/-- The entries of a `broadcast_to_providers` snapshot whose send fails:
not excluded and `sendOk = false`. -/
def btpFailing (exclude_user_id : Option String) (p : String × WebSocketConn) :
    Bool :=
  (some p.1 != exclude_user_id) && !p.2.sendOk

/-- The user ids disconnected during a `broadcast_to_providers` run. -/
def btpFailedUids (conns : List (String × WebSocketConn))
    (exclude_user_id : Option String) : List String :=
  (conns.filter (btpFailing exclude_user_id)).map (fun p => p.1)

/-! ## Helper lemmas -/

theorem find?_append_none {α : Type} (p : α → Bool) (l1 l2 : List α)
    (h : l1.find? p = none) : (l1 ++ l2).find? p = l2.find? p := by
  rw [List.find?_append, h]
  rfl

theorem find?_updateFirst {α : Type} (p : α → Bool) (f : α → α)
    (hpf : ∀ a, p (f a) = p a) (l : List α) (x : α)
    (h : l.find? p = some x) :
    (updateFirst p f l).find? p = some (f x) := by
  induction l with
  | nil => cases h
  | cons a t ih =>
    by_cases hpa : p a = true
    · rw [List.find?_cons_of_pos _ hpa] at h
      injection h with h
      subst h
      rw [updateFirst, if_pos hpa]
      exact List.find?_cons_of_pos _ ((hpf a).trans hpa)
    · have hpa' : p a = false := by
        cases hb : p a with
        | true => exact absurd hb hpa
        | false => rfl
      rw [List.find?_cons_of_neg _ (by simp [hpa'])] at h
      rw [updateFirst, if_neg (by simp [hpa'])]
      rw [List.find?_cons_of_neg _ (by simp [hpa'])]
      exact ih h

theorem lookup_filter_ne {α : Type} (l : List (String × α)) (k : String) :
    (l.filter (fun p => p.1 != k)).lookup k = none := by
  induction l with
  | nil => rfl
  | cons a t ih =>
    by_cases h : a.1 = k
    · simp only [List.filter, h, bne_self_eq_false]
      exact ih
    · have hb : (a.1 != k) = true := by simp [h]
      have hk : (k == a.1) = false := by
        simp [beq_eq_false_iff_ne]
        exact fun e => h e.symm
      simp only [List.filter, hb]
      rw [List.lookup]
      simp only [hk]
      exact ih

theorem not_contains_cons (x uid : String) (fs : List String) :
    (!((uid :: fs).contains x)) = ((x != uid) && !(fs.contains x)) := by
  rw [List.contains_cons]
  simp [Bool.not_or, bne]

theorem filter_ne_then_not_contains {β : Type} (l : List (String × β))
    (uid : String) (fs : List String) :
    (l.filter (fun p => p.1 != uid)).filter (fun p => !(fs.contains p.1)) =
      l.filter (fun p => !((uid :: fs).contains p.1)) := by
  rw [List.filter_filter]
  refine List.filter_congr ?_
  intro p _
  rw [not_contains_cons]
  exact Bool.and_comm _ _

theorem btpGo_attempts (ex : Option String) (l : List (String × WebSocketConn)) :
    ∀ (st : CMState) (n : Nat) (att : List String),
      (btpGo ex l st n att).2.2 =
        att ++ (l.filter (fun p => some p.1 != ex)).map (fun p => p.1) := by
  induction l with
  | nil =>
    intro st n att
    simp [btpGo]
  | cons hd tl ih =>
    obtain ⟨uid, ws⟩ := hd
    intro st n att
    by_cases hex : (some uid == ex) = true
    · rw [btpGo, if_pos hex]
      rw [ih]
      have hbne : ((some uid != ex) : Bool) = false := by
        simp [bne]
        simp at hex
        exact hex
      simp [List.filter_cons, hbne]
    · rw [btpGo, if_neg hex]
      have hbne : ((some uid != ex) : Bool) = true := by
        simp [bne, hex]
      by_cases hok : ws.sendOk = true
      · rw [if_pos hok, ih]
        simp [List.filter_cons, hbne]
      · rw [if_neg hok, ih]
        simp [List.filter_cons, hbne]

theorem btpGo_state (ex : Option String) (l : List (String × WebSocketConn)) :
    ∀ (st : CMState) (n : Nat) (att : List String),
      (btpGo ex l st n att).1.active_connections =
        st.active_connections.filter (fun p => !((btpFailedUids l ex).contains p.1)) ∧
      (btpGo ex l st n att).1.user_locations =
        st.user_locations.filter (fun p => !((btpFailedUids l ex).contains p.1)) ∧
      (btpGo ex l st n att).1.active_services = st.active_services := by
  induction l with
  | nil =>
    intro st n att
    refine ⟨?_, ?_, rfl⟩ <;> simp [btpGo, btpFailedUids, List.contains]
  | cons hd tl ih =>
    obtain ⟨uid, ws⟩ := hd
    intro st n att
    by_cases hex : (some uid == ex) = true
    · have hfail : btpFailing ex (uid, ws) = false := by
        simp [btpFailing, bne]
        intro h
        simp at hex
        exact absurd hex h
      rw [btpGo]
      rw [if_pos hex]
      have hids : btpFailedUids ((uid, ws) :: tl) ex = btpFailedUids tl ex := by
        simp [btpFailedUids, List.filter_cons, hfail]
      rw [hids]
      exact ih st n att
    · have hbne : ((some uid != ex) : Bool) = true := by
        simp [bne, hex]
      by_cases hok : ws.sendOk = true
      · have hfail : btpFailing ex (uid, ws) = false := by
          simp [btpFailing, hbne, hok]
        rw [btpGo, if_neg hex, if_pos hok]
        have hids : btpFailedUids ((uid, ws) :: tl) ex = btpFailedUids tl ex := by
          simp [btpFailedUids, List.filter_cons, hfail]
        rw [hids]
        exact ih st (n + 1) (att ++ [uid])
      · have hokf : ws.sendOk = false := by
          cases hb : ws.sendOk with
          | true => exact absurd hb hok
          | false => rfl
        have hfail : btpFailing ex (uid, ws) = true := by
          simp [btpFailing, hbne, hokf]
        rw [btpGo, if_neg hex, if_neg hok]
        have hids : btpFailedUids ((uid, ws) :: tl) ex = uid :: btpFailedUids tl ex := by
          simp [btpFailedUids, List.filter_cons, hfail]
        rw [hids]
        have h3 := ih (disconnect st uid) n (att ++ [uid])
        refine ⟨?_, ?_, h3.2.2⟩
        · rw [h3.1]
          exact filter_ne_then_not_contains _ uid _
        · rw [h3.2.1]
          exact filter_ne_then_not_contains _ uid _

theorem update_provider_rating_reviews (d : Db) (n : Nat) (p : String) :
    (update_provider_rating d n p).reviews = d.reviews := by
  simp only [update_provider_rating]
  split
  · rfl
  · rfl

/-! ## Claim theorems -/

/-- Claim C7: during a multi-target broadcast, a send is attempted to every
non-excluded connection of the snapshot (the ordered list of their user
ids), so no single failure aborts the broadcast; afterwards exactly the
connections whose send failed — and their location entries — have been
removed from the two maps, and the active-services map is untouched. -/
theorem broadcast_failure_isolation (st : CMState) (exclude_user_id : Option String) :
    (broadcast_to_providers st exclude_user_id).2.2 =
      (st.active_connections.filter (fun p => some p.1 != exclude_user_id)).map
        (fun p => p.1) ∧
    (broadcast_to_providers st exclude_user_id).1.active_connections =
      st.active_connections.filter
        (fun p => !((btpFailedUids st.active_connections exclude_user_id).contains p.1)) ∧
    (broadcast_to_providers st exclude_user_id).1.user_locations =
      st.user_locations.filter
        (fun p => !((btpFailedUids st.active_connections exclude_user_id).contains p.1)) ∧
    (broadcast_to_providers st exclude_user_id).1.active_services =
      st.active_services := by
  have ha := btpGo_attempts exclude_user_id st.active_connections st 0 []
  have hs := btpGo_state exclude_user_id st.active_connections st 0 []
  refine ⟨?_, hs.1, hs.2.1, hs.2.2⟩
  simpa [broadcast_to_providers] using ha

/-- Claim C1 (code_bug evidence): with an authenticated provider and an
existing service request whose status is `requested`, the accept endpoint
does not transition the request to `accepted`: evaluating the availability
guard looks up the member `PENDING` on the `ServiceStatus` enum, which does
not exist, so the handler raises an `AttributeError` and the database is left
unchanged, the request still `requested`. -/
theorem accept_requested_service_crashes :
    accept_service_request aDb 3 wProv "s9" =
      (aDb, Except.error (PyError.attributeError "PENDING")) ∧
    serviceStatusAttr "PENDING" = none ∧
    (aDb.service_requests.find? (fun s => s.id == "s9")).map ServiceReqRow.status =
      some ServiceStatus.requested :=
  And.intro rfl (And.intro rfl rfl)

/-- Claim C9: when the service id is not a key of the broadcaster's
active-services map, `update_service_status` returns `False`, leaves the
whole connection-manager state (all three maps) unchanged, and attempts no
personal send. -/
theorem update_service_status_unknown_id (st : CMState) (now : Nat)
    (service_id : String) (status : ServiceStatus) (provider_id : Option String)
    (h : st.active_services.lookup service_id = none) :
    update_service_status st now service_id status provider_id = (st, false, []) := by
  rw [update_service_status, h]

/-- Witness for C9 at a concrete state: a service id absent from an empty
map. -/
theorem update_service_status_unknown_id_witness :
    update_service_status {} 0 "s" ServiceStatus.accepted none = ({}, false, []) :=
  update_service_status_unknown_id {} 0 "s" ServiceStatus.accepted none rfl

/-- Claim C3 counterexample: the recomputation does not happen when the
reviewee is the request's client.  The provider `wProv` successfully reviews
the client on request `s1` with rating 5 — so one review is now addressed to
`"c1"` — yet the client's stored rating remains `none`, not the rounded mean
of those reviews (5): `create_review` calls `update_provider_rating` only
when the reviewee equals the request's provider id, refuting the claim's
"regardless of whether the reviewee is the request's client or its
provider". -/
theorem review_skips_client_rating_counterexample :
    (create_review wDb 9 wProv xRc "r2").2 = Except.ok xRv ∧
    (create_review wDb 9 wProv xRc "r2").1.reviews.filter
        (fun r => r.reviewee_id == "c1") = [xRv] ∧
    ((create_review wDb 9 wProv xRc "r2").1.users.find?
        (fun w => w.id == "c1")).map UserRow.rating = some none ∧
    round1 (avgRating (create_review wDb 9 wProv xRc "r2").1.reviews "c1") = 5 := by
  refine ⟨rfl, rfl, rfl, ?_⟩
  show round1 (avgRating [xRv] "c1") = 5
  have havg : avgRating [xRv] "c1" = 5 := by
    unfold avgRating
    norm_num [xRv, List.filter]
  rw [havg]
  unfold round1 roundHalfEven
  have h50 : ((10 : ℚ) * 5) = ((50 : Int) : ℚ) := by norm_num
  rw [h50, Int.floor_intCast]
  norm_num

/-- Claim C3 (amended): after a successful review creation whose reviewee is
the request's provider, the review is appended to the reviews collection and
the reviewee's stored user document carries exactly the arithmetic mean of
the ratings of all reviews addressed to them, rounded to one decimal place
(ties to even, Python `round(x, 1)`); the recomputation happens only in this
case — when the reviewee is the request's client it is skipped (see the
counterexample). -/
theorem review_updates_provider_rating
    (db : Db) (now : Nat) (user : UserRow) (rc : ReviewCreate) (newId : String)
    (db' : Db) (rv : ReviewRow) (sr : ServiceReqRow) (u0 : UserRow)
    (hfind : db.service_requests.find? (fun srq => srq.id == rc.service_request_id) = some sr)
    (hok : create_review db now user rc newId = (db', Except.ok rv))
    (hprov : sr.provider_id = some rv.reviewee_id)
    (hu : db.users.find? (fun w => w.id == rv.reviewee_id) = some u0) :
    db'.reviews = db.reviews ++ [rv] ∧
    db'.users.find? (fun w => w.id == rv.reviewee_id) =
      some { u0 with
             rating := some (round1 (avgRating db'.reviews rv.reviewee_id))
             updated_at := now } := by
  unfold create_review at hok
  rw [hfind] at hok
  dsimp only at hok
  split at hok
  · exact Except.noConfusion (congrArg Prod.snd hok)
  · split at hok
    · exact Except.noConfusion (congrArg Prod.snd hok)
    · split at hok
      · exact Except.noConfusion (congrArg Prod.snd hok)
      · rename_i reviewee heq
        simp only [Prod.mk.injEq] at hok
        obtain ⟨hdb, hexc⟩ := hok
        injection hexc with hrv
        subst hrv
        subst hdb
        dsimp only at hprov hu ⊢
        rw [if_pos hprov.symm]
        have hne : (((db.reviews ++
            [({ id := newId, service_request_id := rc.service_request_id,
                rating := rc.rating, comment := rc.comment,
                reviewer_id := user.id, reviewee_id := reviewee,
                created_at := now } : ReviewRow)]).filter
              (fun r => r.reviewee_id == reviewee)).isEmpty) = false := by
          rw [List.filter_append]
          simp
        constructor
        · rw [update_provider_rating_reviews]
        · rw [update_provider_rating_reviews]
          unfold update_provider_rating
          rw [if_neg (by simp [hne])]
          dsimp only
          refine find?_updateFirst _ _ ?_ _ _ hu
          intro a
          rfl

/-- Witness for C3 (amended) at concrete inputs: the client `wClient`
reviews request `s1`, the reviewee is the provider `wProv`, and afterwards
the provider document stores the rounded mean of the reviews addressed to
them. -/
theorem review_updates_provider_rating_witness :
    wDbAfter.reviews = wDb.reviews ++ [wRv] ∧
    wDbAfter.users.find? (fun w => w.id == wRv.reviewee_id) =
      some { wProv with
             rating := some (round1 (avgRating wDbAfter.reviews wRv.reviewee_id))
             updated_at := 9 } :=
  review_updates_provider_rating wDb 9 wClient wRc "r1" wDbAfter wRv wSr wProv
    rfl rfl rfl rfl

/-- Claim C5 counterexample: `server.create_offer` performs no existence
check on the referenced service request.  In a database with no service
requests at all, a provider's offer against the non-existent request id
`"ghost"` succeeds and is stored with status `"pending"`, refuting the
claim that offer creation succeeds only when the referenced request
exists. -/
theorem offer_without_request_counterexample :
    oDb.service_requests.find? (fun s => s.id == oOc.service_request_id) = none ∧
    create_offer oDb 5 wProv oOc "o1" =
      ({ oDb with offers := [offerDoc 5 wProv oOc "o1"] },
       Except.ok (offerDoc 5 wProv oOc "o1")) ∧
    (offerDoc 5 wProv oOc "o1").status = "pending" :=
  And.intro rfl (And.intro rfl rfl)

/-- Claim C5 (amended): creating an offer succeeds for every caller with
role provider — with no check that the referenced service request exists —
and the created offer's initial status is `"pending"`; any non-provider
caller is rejected with a 403 authorization error and the database is left
unchanged. -/
theorem create_offer_no_existence_check
    (db : Db) (now : Nat) (user : UserRow) (oc : OfferCreate) (newId : String) :
    (user.role = UserRole.provider →
      create_offer db now user oc newId =
        ({ db with offers := db.offers ++ [offerDoc now user oc newId] },
         Except.ok (offerDoc now user oc newId))) ∧
    (user.role ≠ UserRole.provider →
      create_offer db now user oc newId =
        (db, Except.error (PyError.http 403 "Only providers can create offers"))) := by
  constructor
  · intro h
    rw [create_offer, if_neg (by simp [h])]
  · intro h
    rw [create_offer, if_pos h]

/-- Witness for C5 (amended) at concrete inputs: a provider's offer against
a non-existent request succeeds with status pending; a client is rejected
with 403. -/
theorem create_offer_no_existence_check_witness :
    create_offer oDb 5 wProv oOc "o1" =
      ({ oDb with offers := oDb.offers ++ [offerDoc 5 wProv oOc "o1"] },
       Except.ok (offerDoc 5 wProv oOc "o1")) ∧
    create_offer oDb 5 wClient oOc "o1" =
      (oDb, Except.error (PyError.http 403 "Only providers can create offers")) :=
  And.intro
    ((create_offer_no_existence_check oDb 5 wProv oOc "o1").1 rfl)
    ((create_offer_no_existence_check oDb 5 wClient oOc "o1").2 (by decide))

/-- Claim C6: once a registration for an email has succeeded, any second
registration with the same email — whatever its other fields, generated id
or timestamp — fails with the duplicate-email conflict
(`HTTPException(400, "Email already registered")`) and stores nothing: the
returned database is exactly the one produced by the first registration. -/
theorem duplicate_registration_conflict
    (hashF : String → String) (id1 id2 : String) (now1 now2 : Nat)
    (db db' : Db) (uc1 uc2 : UserCreate) (u : UserRow)
    (hemail : uc2.email = uc1.email)
    (hok : create_user hashF id1 now1 db uc1 = (db', Except.ok u)) :
    create_user hashF id2 now2 db' uc2 =
      (db', Except.error (PyError.http 400 "Email already registered")) := by
  unfold create_user at hok
  cases hmatch : get_user_by_email db uc1.email with
  | some w =>
    rw [hmatch] at hok
    simp at hok
  | none =>
    rw [hmatch] at hok
    have hdb : ({ db with users := db.users ++ [userDoc hashF id1 now1 uc1] } : Db) = db' :=
      congrArg Prod.fst hok
    have hfind : get_user_by_email db' uc2.email = some (userDoc hashF id1 now1 uc1) := by
      rw [← hdb]
      unfold get_user_by_email at hmatch ⊢
      rw [hemail]
      rw [find?_append_none _ _ _ hmatch]
      exact List.find?_cons_of_pos _ (by simp [userDoc])
    unfold create_user
    rw [hfind]

/-- Witness for C6 at concrete inputs: registering the same email twice
starting from the empty database. -/
theorem duplicate_registration_conflict_witness :
    create_user (fun s => s ++ "#h") "id2" 2
        (create_user (fun s => s ++ "#h") "id1" 1 {}
          { email := "a@x.com", name := "A", role := UserRole.client,
            password := "pw1" }).1
        { email := "a@x.com", name := "B", role := UserRole.provider,
          password := "pw2" } =
      ((create_user (fun s => s ++ "#h") "id1" 1 {}
          { email := "a@x.com", name := "A", role := UserRole.client,
            password := "pw1" }).1,
       Except.error (PyError.http 400 "Email already registered")) :=
  duplicate_registration_conflict (fun s => s ++ "#h") "id1" "id2" 1 2 {}
    (create_user (fun s => s ++ "#h") "id1" 1 {}
      { email := "a@x.com", name := "A", role := UserRole.client,
        password := "pw1" }).1
    { email := "a@x.com", name := "A", role := UserRole.client, password := "pw1" }
    { email := "a@x.com", name := "B", role := UserRole.provider, password := "pw2" }
    (userDoc (fun s => s ++ "#h") "id1" 1
      { email := "a@x.com", name := "A", role := UserRole.client, password := "pw1" })
    rfl rfl

/-- Claim C8: a login that fails because the email is unknown and a login
that fails because the stored hash does not verify raise the same single
generic 401 "Incorrect email or password"; the two outcomes are equal, so
the two failure causes are observationally indistinguishable to the
caller. -/
theorem login_failure_indistinguishable
    (verify : String → String → Bool) (db1 db2 : Db)
    (e1 p1 e2 p2 : String) (row : UserRow)
    (h1 : get_user_by_email db1 e1 = none)
    (h2 : get_user_by_email db2 e2 = some row)
    (h3 : verify p2 row.password_hash = false) :
    login_user verify db1 e1 p1 =
      Except.error (PyError.http 401 "Incorrect email or password") ∧
    login_user verify db2 e2 p2 =
      Except.error (PyError.http 401 "Incorrect email or password") ∧
    login_user verify db1 e1 p1 = login_user verify db2 e2 p2 := by
  have a1 : authenticate_user verify db1 e1 p1 = none := by
    unfold authenticate_user
    rw [h1]
  have a2 : authenticate_user verify db2 e2 p2 = none := by
    unfold authenticate_user
    rw [h2]
    have h2' : db2.users.find? (fun u => u.email == e2) = some row := h2
    rw [h2']
    simp [h3]
  have l1 : login_user verify db1 e1 p1 =
      Except.error (PyError.http 401 "Incorrect email or password") := by
    unfold login_user
    rw [a1]
  have l2 : login_user verify db2 e2 p2 =
      Except.error (PyError.http 401 "Incorrect email or password") := by
    unfold login_user
    rw [a2]
  exact And.intro l1 (And.intro l2 (l1.trans l2.symm))

/-- Witness for C8 at concrete inputs: an unknown email against the empty
database, and a known email with a wrong password against `vDb`, with bcrypt
verification modelled as string comparison of hash values. -/
theorem login_failure_indistinguishable_witness :
    login_user (fun p h => p == h) {} "nobody@x.com" "pw" =
      Except.error (PyError.http 401 "Incorrect email or password") ∧
    login_user (fun p h => p == h) vDb "known@x.com" "wrong" =
      Except.error (PyError.http 401 "Incorrect email or password") ∧
    login_user (fun p h => p == h) {} "nobody@x.com" "pw" =
      login_user (fun p h => p == h) vDb "known@x.com" "wrong" :=
  login_failure_indistinguishable (fun p h => p == h) {} vDb
    "nobody@x.com" "pw" "known@x.com" "wrong" vUser rfl rfl rfl

/-- Claim C2: a payment transaction whose stored `payment_status` is
`"paid"` is never overwritten: `update_payment_transaction` (for any later
status pair), `get_checkout_status` (for any remote response) and the
webhook handler (for any webhook payload naming this session) all return
the database unchanged together with the existing record. -/
theorem paid_transaction_immutable
    (db : Db) (now1 now2 now3 : Nat) (sid s ps : String) (t : Transaction)
    (remote : CheckoutStatusResponse) (wresp : WebhookResponse)
    (hfind : find_transaction db sid = some t)
    (hpaid : t.payment_status = "paid")
    (hsid : wresp.session_id = sid) :
    update_payment_transaction db now1 sid s ps = (db, Except.ok (some t)) ∧
    get_checkout_status db now2 remote sid = (db, Except.ok remote) ∧
    handle_webhook db now3 wresp = (db, Except.ok wresp) := by
  have hupd : ∀ (n : Nat) (s' ps' : String),
      update_payment_transaction db n sid s' ps' = (db, Except.ok (some t)) := by
    intro n s' ps'
    unfold update_payment_transaction
    rw [hfind]
    simp [hpaid]
  refine ⟨hupd now1 s ps, ?_, ?_⟩
  · unfold get_checkout_status
    rw [hupd now2 remote.status remote.payment_status]
  · unfold handle_webhook
    by_cases hw : (wresp.session_id != "") = true
    · rw [if_pos hw, hsid, hupd now3 wresp.event_type wresp.payment_status]
    · rw [if_neg hw]

/-- Witness for C2 at concrete inputs: the paid transaction `pTx` in `pDb`,
a remote status response and a webhook payload for the same session. -/
theorem paid_transaction_immutable_witness :
    update_payment_transaction pDb 11 "sess1" "expired" "unpaid" =
      (pDb, Except.ok (some pTx)) ∧
    get_checkout_status pDb 12
        { status := "expired", payment_status := "unpaid" } "sess1" =
      (pDb, Except.ok { status := "expired", payment_status := "unpaid" }) ∧
    handle_webhook pDb 13
        { session_id := "sess1", event_type := "checkout.session.expired",
          payment_status := "unpaid", event_id := "evt1" } =
      (pDb, Except.ok { session_id := "sess1",
                        event_type := "checkout.session.expired",
                        payment_status := "unpaid", event_id := "evt1" }) :=
  paid_transaction_immutable pDb 11 12 13 "sess1" "expired" "unpaid" pTx
    { status := "expired", payment_status := "unpaid" }
    { session_id := "sess1", event_type := "checkout.session.expired",
      payment_status := "unpaid", event_id := "evt1" }
    rfl rfl rfl

theorem mem_locationTargets (services : List (String × ServiceSnap)) (uid v : String) :
    v ∈ locationTargets services uid ↔
      (v ≠ "" ∧ v ≠ uid ∧ ∃ p ∈ services, isCounterparty p.2 uid v) := by
  unfold locationTargets
  rw [List.mem_filter, List.mem_filterMap]
  constructor
  · rintro ⟨⟨o, homem, hoid⟩, hcond⟩
    have hov : o = some v := hoid
    subst hov
    rw [Bool.and_eq_true, bne_iff_ne, bne_iff_ne] at hcond
    obtain ⟨hne, hnu⟩ := hcond
    unfold involvedUsers at homem
    rw [List.mem_dedup, List.mem_flatMap] at homem
    obtain ⟨p, hpmem, hpin⟩ := homem
    rw [List.mem_filter] at hpmem
    obtain ⟨hps, hpre⟩ := hpmem
    rw [decide_eq_true_eq] at hpre
    simp only [List.mem_cons, List.not_mem_nil, or_false] at hpin
    refine ⟨hne, hnu, p, hps, ?_⟩
    rcases hpre with hc | hp
    · rcases hpin with h1 | h2
      · injection h1 with h1
        exact absurd (h1.trans hc.symm) hnu
      · exact Or.inl ⟨hc.symm, h2.symm⟩
    · rcases hpin with h1 | h2
      · injection h1 with h1
        exact Or.inr ⟨hp.symm, h1.symm⟩
      · have hvu : some v = some uid := h2.trans hp.symm
        injection hvu with hvu
        exact absurd hvu hnu
  · rintro ⟨hne, hnu, p, hps, hcp⟩
    constructor
    · refine ⟨some v, ?_, rfl⟩
      unfold involvedUsers
      rw [List.mem_dedup, List.mem_flatMap]
      refine ⟨p, ?_, ?_⟩
      · rw [List.mem_filter]
        refine ⟨hps, decide_eq_true ?_⟩
        rcases hcp with ⟨hcl, _⟩ | ⟨hpr, _⟩
        · exact Or.inl hcl.symm
        · exact Or.inr hpr.symm
      · simp only [List.mem_cons, List.not_mem_nil, or_false]
        rcases hcp with ⟨_, hpr⟩ | ⟨_, hcl⟩
        · exact Or.inr hpr.symm
        · exact Or.inl (by rw [hcl])
    · rw [Bool.and_eq_true, bne_iff_ne, bne_iff_ne]
      exact ⟨hne, hnu⟩

/-- Claim C4: a location update by a connected user is addressed to exactly
the counterparties — the other party (client or provider) of each active
service request the sender appears in — and to nobody else; in particular
the sender is never among the targets.  (The guard `if target_user_id`
additionally drops an empty-string id, which no real user id is.) -/
theorem location_update_exact_targets (st : CMState) (now : Nat) (uid : String)
    (lat lng : ℚ) :
    (∀ v : String,
      v ∈ (broadcast_location_update st now uid lat lng).2 ↔
        (v ≠ "" ∧ v ≠ uid ∧ ∃ p ∈ st.active_services, isCounterparty p.2 uid v)) ∧
    uid ∉ (broadcast_location_update st now uid lat lng).2 := by
  constructor
  · intro v
    exact mem_locationTargets st.active_services uid v
  · intro hmem
    have h := (mem_locationTargets st.active_services uid uid).mp hmem
    exact h.2.1 rfl

/-- Claim C10: `disconnect` is total (it is a function) and idempotent: after
`disconnect st u` the user id `u` keys neither the connections map nor the
locations map, a second `disconnect` of the same id changes nothing, and the
active-services map is untouched. -/
theorem disconnect_total_idempotent (st : CMState) (u : String) :
    (disconnect st u).active_connections.lookup u = none ∧
    (disconnect st u).user_locations.lookup u = none ∧
    disconnect (disconnect st u) u = disconnect st u ∧
    (disconnect st u).active_services = st.active_services := by
  refine ⟨lookup_filter_ne _ u, lookup_filter_ne _ u, ?_, rfl⟩
  simp [disconnect, List.filter_filter, Bool.and_self]

end Freelas
